import Mathlib

/-!
Shallow embedding of the parallax model viewer (src/src/App.jsx): the box
dimension recompute on resize, the per-frame camera update with off-axis
projection, the face-tracking offset update of predictWebcam, and the
model-fitting step frameObject. All JS numbers are modelled as rationals;
the decimal literals of the source are exact rationals here.
-/

namespace ModelViewer

/-- A 2D vector, as used for the tracked face offset. -/
structure Vec2 where
  x : ℚ
  y : ℚ
deriving DecidableEq, Repr

/-- A 3D vector. -/
structure Vec3 where
  x : ℚ
  y : ℚ
  z : ℚ
deriving DecidableEq, Repr

/-- The box dimensions stored in dimsRef. -/
structure BoxDimensions where
  width : ℚ
  height : ℚ
  depth : ℚ
deriving DecidableEq, Repr

/-- App.jsx line 43: the box depth is fixed. -/
def BOX_DEPTH : ℚ := 10

/-- App.jsx line 44: world units for the fixed box height. -/
def FIXED_HEIGHT : ℚ := 10

/-- App.jsx line 230: facePositionRef starts at x = 0, y = 0. -/
def initialFacePosition : Vec2 := ⟨0, 0⟩

/-- One face-detection step of predictWebcam (App.jsx lines 437 to 445):
when the detector reports a face, the nose-tip landmark updates the stored
offset (offset from center, doubled); when it reports no face, the stored
offset is left untouched. -/
def faceDetectStep (noseTip : Option Vec2) (prev : Vec2) : Vec2 :=
  match noseTip with
  | some tip =>
      let offsetX := tip.x - 0.5
      let offsetY := 0.5 - tip.y
      ⟨offsetX * 2, offsetY * 2⟩
  | none => prev

/-- handleResize (App.jsx lines 287 to 300): recompute the box dimensions
from the container client size; the width tracks the viewport aspect, the
height and depth are the fixed constants. There is no branch on degenerate
sizes. -/
def handleResize (w h : ℚ) : BoxDimensions :=
  let newAspect := w / h
  { width := FIXED_HEIGHT * newAspect, height := FIXED_HEIGHT, depth := BOX_DEPTH }

/-- Camera state that persists across frames: position and Euler rotation. -/
structure CameraState where
  position : Vec3
  rotation : Vec3
deriving DecidableEq, Repr

/-- The per-frame camera output: the eye position, the asymmetric frustum
bounds at the window plane (the variables left, right, top, bottom of the
animate body), the scaled bounds that are passed to makePerspective, and
the near and far planes. -/
structure CameraPose where
  eye : Vec3
  winLeft : ℚ
  winRight : ℚ
  winTop : ℚ
  winBottom : ℚ
  projLeft : ℚ
  projRight : ℚ
  projTop : ℚ
  projBottom : ℚ
  near : ℚ
  far : ℚ
deriving DecidableEq, Repr

/-- App.jsx line 337: fixed horizontal eye translation range. -/
def rangeX : ℚ := 15

/-- App.jsx line 338: fixed vertical eye translation range. -/
def rangeY : ℚ := 15

/-- The camera pose computed by one iteration of the animate loop body
(App.jsx lines 336 to 363): the eye is translated from the tracked offset,
the window-plane frustum bounds are taken relative to the displaced eye,
and the bounds handed to makePerspective are those window-plane bounds
scaled by near over the eye distance. -/
def animateFrame (facePos : Vec2) (dims : BoxDimensions) : CameraPose :=
  let ex := -facePos.x * rangeX
  let ey := facePos.y * rangeY
  let ez : ℚ := 20
  let dist := ez
  let halfW := dims.width / 2
  let halfH := dims.height / 2
  let left := -halfW - ex
  let right := halfW - ex
  let top := halfH - ey
  let bottom := -halfH - ey
  let near : ℚ := 0.1
  let scale := near / dist
  { eye := ⟨ex, ey, ez⟩
    winLeft := left, winRight := right, winTop := top, winBottom := bottom
    projLeft := left * scale, projRight := right * scale
    projTop := top * scale, projBottom := bottom * scale
    near := near, far := 1000 }

/-- One animate iteration as a transition on the persistent camera state
(App.jsx lines 340 to 342 and line 364): the position is overwritten from
the tracked offset and the rotation is reset to zero, whatever the
previous state was. -/
def animateStep (cam : CameraState) (facePos : Vec2) (dims : BoxDimensions) :
    CameraState :=
  { position := (animateFrame facePos dims).eye, rotation := ⟨0, 0, 0⟩ }

/-- A loaded model for the purposes of frameObject: its world bounding box
at unit scale and zero translation has size baseSize and center
baseCenter; the object carries a uniform scale factor and a position. -/
structure Object3D where
  baseSize : Vec3
  baseCenter : Vec3
  scale : ℚ
  position : Vec3
deriving DecidableEq, Repr

/-- World bounding-box size of the object: the base size multiplied by the
uniform scale. -/
def worldSize (o : Object3D) : Vec3 :=
  ⟨o.baseSize.x * o.scale, o.baseSize.y * o.scale, o.baseSize.z * o.scale⟩

/-- World bounding-box center: translation moves the center directly and
scaling moves it relative to the object origin. -/
def worldCenter (o : Object3D) : Vec3 :=
  ⟨o.position.x + o.baseCenter.x * o.scale,
   o.position.y + o.baseCenter.y * o.scale,
   o.position.z + o.baseCenter.z * o.scale⟩

/-- Squared Euclidean length; the guard size.length() === 0 of the code
holds exactly when this is zero. -/
def lenSq (v : Vec3) : ℚ := v.x * v.x + v.y * v.y + v.z * v.z

/-- Math.max over the three components of a vector. -/
def maxOf3 (v : Vec3) : ℚ := max v.x (max v.y v.z)

/-- The largest world bounding-box dimension of an object. -/
def maxDimension (o : Object3D) : ℚ := maxOf3 (worldSize o)

/-- frameObject (App.jsx lines 137 to 162): return unchanged when the
bounding-box size has zero length; otherwise scale so the largest world
dimension matches 0.6 of the smallest box dimension, subtract the scaled
center from the position, then set the depth coordinate to the box middle. -/
def frameObject (o : Object3D) (boxWidth boxHeight boxDepth : ℚ) : Object3D :=
  let size := worldSize o
  if lenSq size = 0 then o
  else
    let maxDim := maxOf3 size
    let targetSize := min boxWidth (min boxHeight boxDepth) * 0.6
    let scale := targetSize / maxDim
    let o1 : Object3D := { o with scale := scale }
    let scaledCenter := worldCenter o1
    let p1 : Vec3 := ⟨o1.position.x - scaledCenter.x,
                      o1.position.y - scaledCenter.y,
                      o1.position.z - scaledCenter.z⟩
    { o1 with position := ⟨p1.x, p1.y, -boxDepth / 2⟩ }

/-- A sum of three squares over the rationals vanishes exactly when every
component vanishes. -/
theorem lenSq_eq_zero_iff (v : Vec3) :
    lenSq v = 0 ↔ v.x = 0 ∧ v.y = 0 ∧ v.z = 0 := by
  unfold lenSq
  constructor
  · intro h
    have hx := mul_self_nonneg v.x
    have hy := mul_self_nonneg v.y
    have hz := mul_self_nonneg v.z
    exact ⟨mul_self_eq_zero.mp (by linarith),
           mul_self_eq_zero.mp (by linarith),
           mul_self_eq_zero.mp (by linarith)⟩
  · rintro ⟨h1, h2, h3⟩
    rw [h1, h2, h3]
    ring

/-- Claim C1: every frame, the scaled frustum bounds that the animate
body passes to makePerspective equal the off-axis pinhole formulas, with
near equal to 0.1 and far equal to 1000, where the eye position of that
frame has positive eye distance. -/
theorem c1_offaxis_frustum_bounds (f : Vec2) (d : BoxDimensions) :
    0 < (animateFrame f d).eye.z ∧
    (animateFrame f d).projLeft =
      (-(d.width / 2) - (animateFrame f d).eye.x) * (animateFrame f d).near
        / (animateFrame f d).eye.z ∧
    (animateFrame f d).projRight =
      (d.width / 2 - (animateFrame f d).eye.x) * (animateFrame f d).near
        / (animateFrame f d).eye.z ∧
    (animateFrame f d).projTop =
      (d.height / 2 - (animateFrame f d).eye.y) * (animateFrame f d).near
        / (animateFrame f d).eye.z ∧
    (animateFrame f d).projBottom =
      (-(d.height / 2) - (animateFrame f d).eye.y) * (animateFrame f d).near
        / (animateFrame f d).eye.z ∧
    (animateFrame f d).near = 0.1 ∧ (animateFrame f d).far = 1000 := by
  refine ⟨by norm_num [animateFrame], ?_, ?_, ?_, ?_, rfl, rfl⟩ <;>
    (simp only [animateFrame]; ring)

/-- Claim C2: for every tracked offset, the frustum bounds computed at the
window plane satisfy winRight minus winLeft equal to the box width and
winTop minus winBottom equal to the box height: the frustum extent at the
window plane is invariant to the eye position. -/
theorem c2_window_width_invariant (f : Vec2) (d : BoxDimensions) :
    (animateFrame f d).winRight - (animateFrame f d).winLeft = d.width ∧
    (animateFrame f d).winTop - (animateFrame f d).winBottom = d.height := by
  constructor <;> (simp only [animateFrame]; ring)

/-- Claim C3, evaluation of the code: the animate body applies the same
gain 15 to both axes of the stored offset, and at the stored offset
x = 0.1, y = 0.2 the eye is (-1.5, 3, 20); no stage multiplies the
horizontal axis by 3.0 and the vertical axis by 1.5, so no input yields
the conditioned pair (0.3, 0.3) demanded by the claim. -/
theorem c3_uniform_axis_gain (f : Vec2) (d : BoxDimensions) :
    (animateFrame f d).eye.x = -(15 * f.x) ∧
    (animateFrame f d).eye.y = 15 * f.y ∧
    (animateFrame ⟨0.1, 0.2⟩ d).eye = ⟨-1.5, 3, 20⟩ := by
  refine ⟨?_, ?_, ?_⟩
  · simp only [animateFrame, rangeX]
    ring
  · simp only [animateFrame, rangeY]
    ring
  · norm_num [animateFrame, rangeX, rangeY, Vec3.mk.injEq]

/-- Claim C4: after every animate iteration the camera rotation is the
identity (0, 0, 0), whatever the previous camera state, tracked offset and
box dimensions were: the camera translates but never rotates. -/
theorem c4_rotation_identity (cam : CameraState) (f : Vec2) (d : BoxDimensions) :
    (animateStep cam f d).rotation = ⟨0, 0, 0⟩ := rfl

/-- Claim C5: for a viewport of positive height, the resize handler
produces width equal to the fixed height times the aspect, unchanged fixed
height and depth, and the resulting width over height ratio equals the
viewport width over height ratio exactly in rational arithmetic. -/
theorem c5_resize_dimensions (w h : ℚ) (hh : 0 < h) :
    handleResize w h = ⟨FIXED_HEIGHT * (w / h), FIXED_HEIGHT, BOX_DEPTH⟩ ∧
    (handleResize w h).width / (handleResize w h).height = w / h := by
  constructor
  · rfl
  · simp only [handleResize, FIXED_HEIGHT]
    rw [mul_comm, mul_div_assoc]
    norm_num

/-- Witness for claim C5 at the concrete viewport 16 by 10. -/
theorem c5_resize_dimensions_witness :
    handleResize 16 10 = ⟨FIXED_HEIGHT * (16 / 10), FIXED_HEIGHT, BOX_DEPTH⟩ ∧
    (handleResize 16 10).width / (handleResize 16 10).height = 16 / 10 :=
  c5_resize_dimensions 16 10 (by norm_num)

/-- Claim C6 is false on the code: a zero-width surface produces width-0
box dimensions instead of retaining the previous non-degenerate value, and
the frame computed with box width 0 differs from the frame previously
computed with the non-degenerate box, so the previous pose is not
retained. -/
theorem c6_counterexample :
    handleResize 0 500 = ⟨0, FIXED_HEIGHT, BOX_DEPTH⟩ ∧
    handleResize 0 500 ≠ ⟨16, 10, 10⟩ ∧
    animateFrame ⟨0.1, 0⟩ ⟨0, 10, 10⟩ ≠ animateFrame ⟨0.1, 0⟩ ⟨16, 10, 10⟩ := by
  refine ⟨?_, ?_, ?_⟩
  · simp [handleResize, FIXED_HEIGHT, BOX_DEPTH]
  · norm_num [handleResize, FIXED_HEIGHT, BOX_DEPTH, BoxDimensions.mk.injEq]
  · norm_num [animateFrame, rangeX, rangeY, CameraPose.mk.injEq, Vec3.mk.injEq]

/-- Claim C6 amended: the code has no degenerate-geometry guard. The
resize handler recomputes the dimensions unconditionally, so a zero-width
surface of positive height yields width 0, and the animate body called
with box width 0 computes a degenerate frustum whose window-plane left and
right bounds coincide, rather than retaining a previous pose; both
computations are total arithmetic and raise no error. -/
theorem c6_no_degenerate_guard (h fx fy bh bd : ℚ) (hh : 0 < h) :
    (handleResize 0 h).width = 0 ∧
    (animateFrame ⟨fx, fy⟩ ⟨0, bh, bd⟩).winLeft
      = (animateFrame ⟨fx, fy⟩ ⟨0, bh, bd⟩).winRight := by
  constructor
  · simp [handleResize, FIXED_HEIGHT]
  · simp only [animateFrame]
    ring

/-- Witness for the amended claim C6 at height 500 and offset (0.1, 0). -/
theorem c6_no_degenerate_guard_witness :
    (handleResize 0 500).width = 0 ∧
    (animateFrame ⟨0.1, 0⟩ ⟨0, 10, 10⟩).winLeft
      = (animateFrame ⟨0.1, 0⟩ ⟨0, 10, 10⟩).winRight :=
  c6_no_degenerate_guard 500 0.1 0 10 10 (by norm_num)

/-- Claim C7: a detector step with no detected face leaves the stored
offset unchanged at its previous value, and before tracking ever produces
a value the stored offset is (0, 0), so the camera starts centered. -/
theorem c7_hold_last_value (prev : Vec2) :
    faceDetectStep none prev = prev ∧ initialFacePosition = ⟨0, 0⟩ :=
  ⟨rfl, rfl⟩

/-- Claim C8: for the tracked offset (0, 0) the eye is (0, 0, 20) and the
frustum is symmetric, both at the window plane and after scaling: the left
bound is the negation of the right bound and the top bound is the negation
of the bottom bound. -/
theorem c8_centering (d : BoxDimensions) :
    (animateFrame ⟨0, 0⟩ d).eye = ⟨0, 0, 20⟩ ∧
    (animateFrame ⟨0, 0⟩ d).winLeft = -(animateFrame ⟨0, 0⟩ d).winRight ∧
    (animateFrame ⟨0, 0⟩ d).winTop = -(animateFrame ⟨0, 0⟩ d).winBottom ∧
    (animateFrame ⟨0, 0⟩ d).projLeft = -(animateFrame ⟨0, 0⟩ d).projRight ∧
    (animateFrame ⟨0, 0⟩ d).projTop = -(animateFrame ⟨0, 0⟩ d).projBottom := by
  refine ⟨?_, ?_, ?_, ?_, ?_⟩ <;> (simp only [animateFrame]; norm_num)

/-- A unit cube at unit scale, used as concrete model input. -/
def sampleCube : Object3D := ⟨⟨1, 1, 1⟩, ⟨0, 0, 0⟩, 1, ⟨0, 0, 0⟩⟩

/-- An object with an empty bounding box but nonzero center, scale and
position, used as concrete degenerate input. -/
def emptyObject : Object3D := ⟨⟨0, 0, 0⟩, ⟨1, 2, 3⟩, 2, ⟨4, 5, 6⟩⟩

/-- Claim C9 is false on the code: fitting a unit cube into a 10 by 10 by
10 box scales its largest dimension to 6, which is 0.6 of the smallest box
dimension, not the fraction 2 over 3 stated by the claim. -/
theorem c9_counterexample :
    maxDimension (frameObject sampleCube 10 10 10) = 6 ∧
    (2 : ℚ) / 3 * min 10 (min 10 10) ≠ 6 := by
  constructor
  · norm_num [frameObject, lenSq, worldSize, worldCenter, maxOf3, maxDimension,
      sampleCube, min_self, max_self]
  · norm_num [min_self]

/-- Claim C9 amended: a freshly loaded model (uniform scale 1) with a
positive largest bounding-box dimension, fit into a box whose smallest
dimension is positive, is scaled so that its largest world bounding-box
dimension equals exactly 0.6 of the smallest box dimension. -/
theorem c9_fit_fraction (o : Object3D) (bw bh bd : ℚ)
    (hscale : o.scale = 1) (hmax : 0 < maxDimension o)
    (hbox : 0 < min bw (min bh bd)) :
    maxDimension (frameObject o bw bh bd) = min bw (min bh bd) * 0.6 := by
  have hguard : ¬ lenSq (worldSize o) = 0 := by
    intro h0
    rcases (lenSq_eq_zero_iff _).mp h0 with ⟨hx, hy, hz⟩
    rw [maxDimension, maxOf3, hx, hy, hz] at hmax
    norm_num at hmax
  have hM : 0 < max o.baseSize.x (max o.baseSize.y o.baseSize.z) := by
    have h := hmax
    simp only [maxDimension, maxOf3, worldSize, hscale, mul_one] at h
    exact h
  have hS : (0:ℚ) ≤ min bw (min bh bd) * 0.6
      / max o.baseSize.x (max o.baseSize.y o.baseSize.z) :=
    le_of_lt (div_pos (mul_pos hbox (by norm_num)) hM)
  simp only [frameObject]
  rw [if_neg hguard]
  simp only [maxDimension, maxOf3, worldSize, hscale, mul_one]
  rw [← max_mul_of_nonneg _ _ hS, ← max_mul_of_nonneg _ _ hS]
  rw [mul_comm, div_mul_cancel₀ _ (ne_of_gt hM)]

/-- Witness for the amended claim C9: the unit cube in a 10 by 12 by 14
box ends with largest dimension 0.6 of the smallest box dimension. -/
theorem c9_fit_fraction_witness :
    maxDimension (frameObject sampleCube 10 12 14) = min 10 (min 12 14) * 0.6 :=
  c9_fit_fraction sampleCube 10 12 14 rfl
    (by norm_num [maxDimension, maxOf3, worldSize, sampleCube, max_self])
    (by norm_num)

/-- Claim C10: when the world bounding-box size of the object has zero
length, frameObject returns the object unchanged, so its scale and
position are untouched. -/
theorem c10_zero_size_guard (o : Object3D) (bw bh bd : ℚ)
    (h0 : lenSq (worldSize o) = 0) :
    frameObject o bw bh bd = o := by
  simp only [frameObject]
  rw [if_pos h0]

/-- Witness for claim C10 at a concrete object with an empty bounding box
and nonzero scale and position. -/
theorem c10_zero_size_guard_witness :
    frameObject emptyObject 10 10 10 = emptyObject :=
  c10_zero_size_guard emptyObject 10 10 10
    (by norm_num [lenSq, worldSize, emptyObject])

end ModelViewer
